import Mathlib

/-!
Verification development for the evaluatable-length value model of
`bevy_ui_style_builder` (`src/lib.rs`): the `Breadth` two-variant numeric
union, its variant-checked arithmetic, the `NumRect` four-edge rectangle,
and the conversion boundary with the host `Val` type.

The `f32` payloads of the source are modelled as `ℚ`: every property at
stake is about the symbolic arithmetic the code performs, not about
floating-point rounding, and `ℚ` keeps all definitions executable and all
equalities decidable. In-place (`*_assign`) Rust methods are modelled as
functions returning the new value of `self` (paired with the returned
`Result` where the method is fallible).
-/

namespace BevyUiStyleBuilder

/-- Modelled from the spec: the host engine's general length type
(`bevy::prelude::Val`), which is external to this repository. Per the spec
it is a superset union of the resolvable variants `Px` and `Percent`,
additionally containing the non-resolvable variants "automatic" and
"undefined". -/
inductive Val where
  | Undefined : Val
  | Auto : Val
  | Px : ℚ → Val
  | Percent : ℚ → Val
deriving DecidableEq, Repr

/-- `enum Breadth` (`src/lib.rs:38-44`): a value in pixels or a value in
percent. -/
inductive Breadth where
  | Px : ℚ → Breadth
  | Percent : ℚ → Breadth
deriving DecidableEq, Repr

/-- `impl Default for Breadth` (`src/lib.rs:46-50`). -/
def Breadth.default : Breadth := Breadth.Px 0

/-- `enum BreadthArithmeticError` (`src/lib.rs:110-114`). -/
inductive BreadthArithmeticError where
  | NonIdenticalVariants : BreadthArithmeticError
deriving DecidableEq, Repr

/-- `enum BreadthConversionError` (`src/lib.rs:116-120`). -/
inductive BreadthConversionError where
  | NonEvaluateable : BreadthConversionError
deriving DecidableEq, Repr

/-- `impl From<Breadth> for Val` (`src/lib.rs:52-59`). -/
def Val.from_breadth : Breadth → Val
  | Breadth.Px inner => Val.Px inner
  | Breadth.Percent inner => Val.Percent inner

/-- `impl TryFrom<Val> for Breadth` (`src/lib.rs:61-70`): `Px` and
`Percent` convert, every other variant is `NonEvaluateable`. -/
def Breadth.try_from : Val → Except BreadthConversionError Breadth
  | Val.Px inner => Except.ok (Breadth.Px inner)
  | Val.Percent inner => Except.ok (Breadth.Percent inner)
  | _ => Except.error BreadthConversionError.NonEvaluateable

/-- `impl Mul<f32> for Breadth` (`src/lib.rs:72-81`). -/
def Breadth.mul : Breadth → ℚ → Breadth
  | Breadth.Px value, rhs => Breadth.Px (value * rhs)
  | Breadth.Percent value, rhs => Breadth.Percent (value * rhs)

/-- `impl MulAssign<f32> for Breadth` (`src/lib.rs:83-89`): the or-pattern
`Px(value) | Percent(value) => *value *= rhs` multiplies the payload in
place, keeping the variant; the result is the new value of `self`. -/
def Breadth.mul_assign : Breadth → ℚ → Breadth
  | Breadth.Px value, rhs => Breadth.Px (value * rhs)
  | Breadth.Percent value, rhs => Breadth.Percent (value * rhs)

/-- `impl Div<f32> for Breadth` (`src/lib.rs:91-100`). -/
def Breadth.div : Breadth → ℚ → Breadth
  | Breadth.Px value, rhs => Breadth.Px (value / rhs)
  | Breadth.Percent value, rhs => Breadth.Percent (value / rhs)

/-- `impl DivAssign<f32> for Breadth` (`src/lib.rs:102-108`): the
or-pattern divides the payload in place, keeping the variant. -/
def Breadth.div_assign : Breadth → ℚ → Breadth
  | Breadth.Px value, rhs => Breadth.Px (value / rhs)
  | Breadth.Percent value, rhs => Breadth.Percent (value / rhs)

/-- `Breadth::try_add` (`src/lib.rs:125-133`). -/
def Breadth.try_add : Breadth → Breadth → Except BreadthArithmeticError Breadth
  | Breadth.Px value, Breadth.Px rhs_value => Except.ok (Breadth.Px (value + rhs_value))
  | Breadth.Percent value, Breadth.Percent rhs_value =>
      Except.ok (Breadth.Percent (value + rhs_value))
  | _, _ => Except.error BreadthArithmeticError.NonIdenticalVariants

/-- `Breadth::try_add_assign` (`src/lib.rs:136-139`): `*self =
self.try_add(rhs)?; Ok(())` — on success `self` becomes the sum, on error
`self` is left unchanged and the error is surfaced. Returns the new value
of `self` together with the `Result`. -/
def Breadth.try_add_assign (self rhs : Breadth) :
    Breadth × Except BreadthArithmeticError Unit :=
  match self.try_add rhs with
  | Except.ok v => (v, Except.ok ())
  | Except.error e => (self, Except.error e)

/-- `Breadth::try_sub` (`src/lib.rs:143-151`). -/
def Breadth.try_sub : Breadth → Breadth → Except BreadthArithmeticError Breadth
  | Breadth.Px value, Breadth.Px rhs_value => Except.ok (Breadth.Px (value - rhs_value))
  | Breadth.Percent value, Breadth.Percent rhs_value =>
      Except.ok (Breadth.Percent (value - rhs_value))
  | _, _ => Except.error BreadthArithmeticError.NonIdenticalVariants

/-- `Breadth::try_sub_assign` (`src/lib.rs:154-157`): `*self =
self.try_sub(rhs)?; Ok(())`. -/
def Breadth.try_sub_assign (self rhs : Breadth) :
    Breadth × Except BreadthArithmeticError Unit :=
  match self.try_sub rhs with
  | Except.ok v => (v, Except.ok ())
  | Except.error e => (self, Except.error e)

/-- `Breadth::evaluate` (`src/lib.rs:163-168`). -/
def Breadth.evaluate : Breadth → ℚ → ℚ
  | Breadth.Percent value, size => size * value / 100
  | Breadth.Px value, _ => value

/-- `Breadth::add_with_size` (`src/lib.rs:172-174`). -/
def Breadth.add_with_size (self rhs : Breadth) (size : ℚ) : ℚ :=
  self.evaluate size + rhs.evaluate size

/-- `Breadth::add_assign_with_size` (`src/lib.rs:178-180`): `*self =
Breadth::Px(self.evaluate(size) + rhs.evaluate(size))`. -/
def Breadth.add_assign_with_size (self rhs : Breadth) (size : ℚ) : Breadth :=
  Breadth.Px (self.evaluate size + rhs.evaluate size)

/-- `Breadth::sub_with_size` (`src/lib.rs:184-186`). -/
def Breadth.sub_with_size (self rhs : Breadth) (size : ℚ) : ℚ :=
  self.evaluate size - rhs.evaluate size

/-- `Breadth::sub_assign_with_size` (`src/lib.rs:190-192`): the source
reads `*self = Breadth::Px(self.add_with_size(rhs, size));` — it calls
`add_with_size`, not `sub_with_size`. -/
def Breadth.sub_assign_with_size (self rhs : Breadth) (size : ℚ) : Breadth :=
  Breadth.Px (self.add_with_size rhs size)

/-- Variant discriminator used to state variant-preservation invariants:
`true` for `Px`, `false` for `Percent`. -/
def Breadth.is_px : Breadth → Bool
  | Breadth.Px _ => true
  | Breadth.Percent _ => false

/-- Payload extractor used to state payload-transformation facts. -/
def Breadth.payload : Breadth → ℚ
  | Breadth.Px value => value
  | Breadth.Percent value => value

/-- `struct NumRect` (`src/lib.rs:196-202`). -/
structure NumRect where
  left : Breadth
  right : Breadth
  top : Breadth
  bottom : Breadth
deriving DecidableEq, Repr

/-- `impl Default for NumRect` (derived, `src/lib.rs:196`): every edge is
`Breadth::default() = Px(0.0)`. -/
def NumRect.default : NumRect :=
  { left := Breadth.default, right := Breadth.default
    top := Breadth.default, bottom := Breadth.default }

/-- `NumRect::new` (`src/lib.rs:205-212`). -/
def NumRect.new (left right top bottom : Breadth) : NumRect :=
  { left := left, right := right, top := top, bottom := bottom }

/-- `NumRect::all` (`src/lib.rs:214-221`). -/
def NumRect.all (value : Breadth) : NumRect :=
  { left := value, right := value, top := value, bottom := value }

/-- `NumRect::horizontal` (`src/lib.rs:223-229`): `left`/`right` set,
rest from `..Default::default()`. -/
def NumRect.horizontal (value : Breadth) : NumRect :=
  { NumRect.default with left := value, right := value }

/-- `NumRect::vertical` (`src/lib.rs:231-237`). -/
def NumRect.vertical (value : Breadth) : NumRect :=
  { NumRect.default with top := value, bottom := value }

/-- `NumRect::left` (`src/lib.rs:239-244`); named `left_only` here because
the structure field projection `NumRect.left` takes the source name. -/
def NumRect.left_only (value : Breadth) : NumRect :=
  { NumRect.default with left := value }

/-- `NumRect::right` (`src/lib.rs:246-251`). -/
def NumRect.right_only (value : Breadth) : NumRect :=
  { NumRect.default with right := value }

/-- `NumRect::top` (`src/lib.rs:253-258`). -/
def NumRect.top_only (value : Breadth) : NumRect :=
  { NumRect.default with top := value }

/-- `NumRect::bottom` (`src/lib.rs:260-265`). -/
def NumRect.bottom_only (value : Breadth) : NumRect :=
  { NumRect.default with bottom := value }

/-- C1: the claim says `sub_assign_with_size(a, b, size)` sets `a` to
`Px(a.evaluate(size) - b.evaluate(size))`, consistent with
`sub_with_size`. The code instead routes through `add_with_size`: at
`a = Px 10`, `b = Px 3`, `size = 100` it produces `Px 13` while
`sub_with_size` yields `7` — the in-place form adds where the value form
subtracts. -/
theorem C1_sub_assign_with_size_adds :
    (Breadth.Px 10).sub_assign_with_size (Breadth.Px 3) 100 = Breadth.Px 13 ∧
    (Breadth.Px 10).sub_with_size (Breadth.Px 3) 100 = 7 ∧
    (Breadth.Px 10).sub_assign_with_size (Breadth.Px 3) 100 ≠
      Breadth.Px ((Breadth.Px 10).sub_with_size (Breadth.Px 3) 100) := by
  refine ⟨?_, ?_, ?_⟩ <;>
    norm_num [Breadth.sub_assign_with_size, Breadth.sub_with_size,
      Breadth.add_with_size, Breadth.evaluate]

/-- C2: `try_add` and `try_sub` succeed exactly on matching variants,
returning the variant-preserving sum (resp. difference) of the payloads,
and fail with `NonIdenticalVariants` on mismatched variants in both
operand orders. -/
theorem C2_try_add_try_sub_variant_checked (x y : ℚ) :
    (Breadth.Px x).try_add (Breadth.Px y) = Except.ok (Breadth.Px (x + y)) ∧
    (Breadth.Percent x).try_add (Breadth.Percent y) =
      Except.ok (Breadth.Percent (x + y)) ∧
    (Breadth.Px x).try_add (Breadth.Percent y) =
      Except.error BreadthArithmeticError.NonIdenticalVariants ∧
    (Breadth.Percent x).try_add (Breadth.Px y) =
      Except.error BreadthArithmeticError.NonIdenticalVariants ∧
    (Breadth.Px x).try_sub (Breadth.Px y) = Except.ok (Breadth.Px (x - y)) ∧
    (Breadth.Percent x).try_sub (Breadth.Percent y) =
      Except.ok (Breadth.Percent (x - y)) ∧
    (Breadth.Px x).try_sub (Breadth.Percent y) =
      Except.error BreadthArithmeticError.NonIdenticalVariants ∧
    (Breadth.Percent x).try_sub (Breadth.Px y) =
      Except.error BreadthArithmeticError.NonIdenticalVariants :=
  ⟨rfl, rfl, rfl, rfl, rfl, rfl, rfl, rfl⟩

/-- C3: `evaluate` returns the payload unchanged for `Px`, ignoring the
reference size, and `size * value / 100` for `Percent`. -/
theorem C3_evaluate_semantics (x r : ℚ) :
    (Breadth.Px x).evaluate r = x ∧
    (Breadth.Percent x).evaluate r = r * x / 100 :=
  ⟨rfl, rfl⟩

/-- C4: conversion from the host `Val` succeeds exactly on the resolvable
variants `Px` and `Percent`, the round trip through `Breadth` restores the
original `Val`, and the non-resolvable variants `Auto` and `Undefined`
fail with `NonEvaluateable`. -/
theorem C4_val_breadth_round_trip (x : ℚ) :
    Breadth.try_from (Val.Px x) = Except.ok (Breadth.Px x) ∧
    Breadth.try_from (Val.Percent x) = Except.ok (Breadth.Percent x) ∧
    Val.from_breadth (Breadth.Px x) = Val.Px x ∧
    Val.from_breadth (Breadth.Percent x) = Val.Percent x ∧
    Breadth.try_from Val.Auto =
      Except.error BreadthConversionError.NonEvaluateable ∧
    Breadth.try_from Val.Undefined =
      Except.error BreadthConversionError.NonEvaluateable :=
  ⟨rfl, rfl, rfl, rfl, rfl, rfl⟩

/-- C5: the resolving arithmetic is total and is exactly
`evaluate`-then-combine: `add_with_size a b size = a.evaluate size +
b.evaluate size` and `sub_with_size a b size = a.evaluate size -
b.evaluate size`, for every pair of operands including mismatched
variants. -/
theorem C5_with_size_resolves_then_combines (a b : Breadth) (size : ℚ) :
    a.add_with_size b size = a.evaluate size + b.evaluate size ∧
    a.sub_with_size b size = a.evaluate size - b.evaluate size :=
  ⟨rfl, rfl⟩

/-- C6: `add_assign_with_size` sets `self` to `Px (add_with_size self rhs
size)` — the result variant is always `Px` whatever the input variants. -/
theorem C6_add_assign_with_size_is_px (a b : Breadth) (size : ℚ) :
    a.add_assign_with_size b size = Breadth.Px (a.add_with_size b size) ∧
    (a.add_assign_with_size b size).is_px = true :=
  ⟨rfl, rfl⟩

/-- C7: `try_add_assign` and `try_sub_assign` update `self` to the
`try_add` (resp. `try_sub`) result and return `Ok` on matching variants,
and on a variant mismatch return `NonIdenticalVariants` leaving `self`
unchanged — stated exhaustively over the four variant combinations of
each operation. -/
theorem C7_try_assign_atomicity (x y : ℚ) :
    (Breadth.Px x).try_add_assign (Breadth.Px y) =
      (Breadth.Px (x + y), Except.ok ()) ∧
    (Breadth.Percent x).try_add_assign (Breadth.Percent y) =
      (Breadth.Percent (x + y), Except.ok ()) ∧
    (Breadth.Px x).try_add_assign (Breadth.Percent y) =
      (Breadth.Px x, Except.error BreadthArithmeticError.NonIdenticalVariants) ∧
    (Breadth.Percent x).try_add_assign (Breadth.Px y) =
      (Breadth.Percent x,
        Except.error BreadthArithmeticError.NonIdenticalVariants) ∧
    (Breadth.Px x).try_sub_assign (Breadth.Px y) =
      (Breadth.Px (x - y), Except.ok ()) ∧
    (Breadth.Percent x).try_sub_assign (Breadth.Percent y) =
      (Breadth.Percent (x - y), Except.ok ()) ∧
    (Breadth.Px x).try_sub_assign (Breadth.Percent y) =
      (Breadth.Px x, Except.error BreadthArithmeticError.NonIdenticalVariants) ∧
    (Breadth.Percent x).try_sub_assign (Breadth.Px y) =
      (Breadth.Percent x,
        Except.error BreadthArithmeticError.NonIdenticalVariants) :=
  ⟨rfl, rfl, rfl, rfl, rfl, rfl, rfl, rfl⟩

/-- C8: `NumRect::all` sets all four edges to `v`; `horizontal` sets
`left`/`right` and leaves `top`/`bottom` at the `Px 0` default;
`vertical` sets `top`/`bottom`; each single-edge constructor sets exactly
its edge, the remaining three staying at `Px 0`. -/
theorem C8_numrect_constructors (v : Breadth) :
    NumRect.all v = NumRect.new v v v v ∧
    NumRect.horizontal v =
      { left := v, right := v, top := Breadth.Px 0, bottom := Breadth.Px 0 } ∧
    NumRect.vertical v =
      { left := Breadth.Px 0, right := Breadth.Px 0, top := v, bottom := v } ∧
    NumRect.left_only v =
      { left := v, right := Breadth.Px 0, top := Breadth.Px 0,
        bottom := Breadth.Px 0 } ∧
    NumRect.right_only v =
      { left := Breadth.Px 0, right := v, top := Breadth.Px 0,
        bottom := Breadth.Px 0 } ∧
    NumRect.top_only v =
      { left := Breadth.Px 0, right := Breadth.Px 0, top := v,
        bottom := Breadth.Px 0 } ∧
    NumRect.bottom_only v =
      { left := Breadth.Px 0, right := Breadth.Px 0, top := Breadth.Px 0,
        bottom := v } :=
  ⟨rfl, rfl, rfl, rfl, rfl, rfl, rfl⟩

/-- C9: the variant tag is invariant under every non-resolving operation:
`Mul`/`MulAssign`/`Div`/`DivAssign` preserve the variant while
multiplying (resp. dividing) the payload by the factor, and a successful
`try_add`/`try_sub` returns the common variant of its operands. -/
theorem C9_variant_tag_invariant (b : Breadth) (f : ℚ) (a c : Breadth) :
    (b.mul f).is_px = b.is_px ∧ (b.mul f).payload = b.payload * f ∧
    (b.mul_assign f).is_px = b.is_px ∧
    (b.mul_assign f).payload = b.payload * f ∧
    (b.div f).is_px = b.is_px ∧ (b.div f).payload = b.payload / f ∧
    (b.div_assign f).is_px = b.is_px ∧
    (b.div_assign f).payload = b.payload / f ∧
    (a.try_add b = Except.ok c → c.is_px = a.is_px ∧ c.is_px = b.is_px) ∧
    (a.try_sub b = Except.ok c → c.is_px = a.is_px ∧ c.is_px = b.is_px) := by
  cases a <;> cases b <;> cases c <;>
    simp [Breadth.mul, Breadth.mul_assign, Breadth.div, Breadth.div_assign,
      Breadth.try_add, Breadth.try_sub, Breadth.is_px, Breadth.payload]

/-- Witness for C9: the `try_add` implication discharged at
`Px 2 + Px 4 = Px 6`. -/
theorem C9_variant_tag_invariant_witness :
    (Breadth.Px 6).is_px = (Breadth.Px 2).is_px ∧
    (Breadth.Px 6).is_px = (Breadth.Px 4).is_px :=
  (C9_variant_tag_invariant (Breadth.Px 4) 3 (Breadth.Px 2)
    (Breadth.Px 6)).2.2.2.2.2.2.2.2.1 (by norm_num [Breadth.try_add])

/-- C10: the in-place `MulAssign`/`DivAssign` forms agree with the value
`Mul`/`Div` forms on every input, despite the different match
structures in the source. -/
theorem C10_assign_forms_agree_with_value_forms (b : Breadth) (f : ℚ) :
    b.mul_assign f = b.mul f ∧ b.div_assign f = b.div f := by
  cases b <;> exact ⟨rfl, rfl⟩

end BevyUiStyleBuilder
